import Mathlib

/-!
# go-sftp-server: a shallow embedding of `go-sftp-server.go`

The Go program is one file.  Its functions are embedded as pure Lean functions:

* a Go `string` and a Go `[]byte` are both finite byte sequences, `List Byte`;
* a Go `error` is a value of `GoError`, and a `(value, error)` result is an `Except`
  or a pair of options where the source returns `nil, nil`;
* calls that act on the outside world (`req.Reply`, `channel.Close`, `log.Printf`,
  `newChannel.Accept`, ...) are recorded, in program order, in a list of events;
* what the outside world answers (the result of `sftp.NewServer`, of `server.Serve`,
  of `newChannel.Accept`, the file system, the cryptographic library) is an explicit
  argument of the embedded function;
* a `for x := range ch` loop over a Go channel that is eventually closed is a
  recursion over the finite list of values the channel delivers.
-/

namespace GoSftpServer

/-! ## Bytes and strings -/

/-- One byte. -/
abbrev Byte := Fin 256

/-- Go strings are immutable byte sequences; `==` on them is byte-wise equality. -/
abbrev GoString := List Byte

/-- The bytes of a Go string literal (its UTF-8 encoding). -/
def lit (s : String) : GoString :=
  (String.toUTF8 s).data.toList.map (fun b => Fin.ofNat b.toNat)

/-! ## Errors and log lines -/

/-- Go `error` values: the ones the program builds with `fmt.Errorf`, `io.EOF`, and the
ones handed over by a library or the operating system (`ext`). -/
inductive GoError where
  /-- an error value produced outside the program -/
  | ext (msg : GoString)
  /-- the sentinel `io.EOF` -/
  | EOF
  /-- the error `fmt.Errorf("password rejected for %q", c.User())` -/
  | passwordRejected (user : GoString)
  /-- the error `fmt.Errorf("failed to read host key: %v", err)` -/
  | failedToReadHostKey (err : GoError)
  /-- the error `fmt.Errorf("failed to parse host key: %v", err)` -/
  | failedToParseHostKey (err : GoError)
  /-- the error `fmt.Errorf("failed to generate key: %v", err)` -/
  | failedToGenerateKey (err : GoError)
  /-- the error `fmt.Errorf("failed to marshal private key: %v", err)` -/
  | failedToMarshalPrivateKey (err : GoError)
  /-- the error `fmt.Errorf("failed to write host key: %v", err)` -/
  | failedToWriteHostKey (err : GoError)
  /-- the error `fmt.Errorf("failed to parse generated key: %v", err)` -/
  | failedToParseGeneratedKey (err : GoError)
  deriving DecidableEq, Repr

/-- The `log.Printf` calls of the program, one constructor per call site, with the
arguments that are formatted into the line. -/
inductive LogMsg where
  /-- line 38 -/
  | authenticated (user addr : GoString)
  /-- line 41 -/
  | failedAuthentication (user addr : GoString)
  /-- line 72 -/
  | newConnection (addr : GoString)
  /-- line 76 -/
  | failedHandshake (addr : GoString) (err : GoError)
  /-- line 81 -/
  | connectionEstablished (addr version : GoString)
  /-- line 94 -/
  | couldNotAcceptChannel (err : GoError)
  /-- line 117 -/
  | startingSftpSubsystem
  /-- line 133 -/
  | failedToCreateSftpServer (err : GoError)
  /-- line 138 -/
  | sftpSessionStarted
  /-- line 141 -/
  | sftpServerError (err : GoError)
  /-- line 144 -/
  | sftpSessionEnded
  /-- line 150 -/
  | loadingExistingHostKey (path : GoString)
  /-- line 154 -/
  | generatingNewHostKey (path : GoString)
  /-- line 193 -/
  | hostKeySaved (path : GoString)
  deriving DecidableEq, Repr

/-! ## The password callback (lines 36-43) -/

/-- The part of `ssh.ConnMetadata` the callback reads. -/
structure ConnMetadata where
  User : GoString
  RemoteAddr : GoString
  deriving DecidableEq, Repr

/-- The `ssh.Permissions` record; the callback only ever returns a nil pointer to it. -/
structure Permissions where
  CriticalOptions : List (GoString × GoString)
  Extensions : List (GoString × GoString)
  deriving DecidableEq, Repr

/-- What one call of the callback does: the two returned values and the line logged. -/
structure AuthOutcome where
  perms : Option Permissions
  err : Option GoError
  logged : List LogMsg
  deriving DecidableEq, Repr

/-- The closure assigned to `PasswordCallback`.  `username` and `password` are the values
of the two flags it captures. -/
def PasswordCallback (username password : GoString) (c : ConnMetadata) (pass : List Byte) :
    AuthOutcome :=
  if c.User = username ∧ pass = password then
    AuthOutcome.mk none none [LogMsg.authenticated c.User c.RemoteAddr]
  else
    AuthOutcome.mk none (some (GoError.passwordRejected c.User))
      [LogMsg.failedAuthentication c.User c.RemoteAddr]

/-! ## The subsystem router (lines 102-145) -/

/-- An `ssh.Request`. -/
structure Request where
  Type_ : GoString
  WantReply : Bool
  Payload : List Byte
  deriving DecidableEq, Repr

/-- What the `sftp` package answers during one call of `handleSFTP`: the error of
`sftp.NewServer(channel)` and the error of `server.Serve()` (`none` is `nil`). -/
structure SftpRun where
  NewServer : Option GoError
  Serve : Option GoError
  deriving DecidableEq, Repr

/-- The observable actions of the router on one channel.  A request is identified by its
position in the request stream. -/
inductive Event where
  /-- the call `req.Reply(ok, nil)` on the request at position `req` -/
  | reply (req : Nat) (ok : Bool)
  /-- a call of `log.Printf` -/
  | log (m : LogMsg)
  /-- control enters `handleSFTP(channel)` -/
  | callHandleSFTP
  /-- the call `sftp.NewServer(channel)` -/
  | newServer
  /-- the call `server.Serve()` -/
  | serve
  /-- the deferred `server.Close()` -/
  | serverClose
  /-- control returns from `handleSFTP(channel)` -/
  | returnHandleSFTP
  /-- the deferred `channel.Close()` of `handleChannelRequests` -/
  | channelClose
  deriving DecidableEq, Repr

/-- Function `handleSFTP`.  It returns nothing; its actions are the events. -/
def handleSFTP (run : SftpRun) : List Event :=
  match run.NewServer with
  | some err =>
    [Event.newServer, Event.log (LogMsg.failedToCreateSftpServer err)]
  | none =>
    [Event.newServer, Event.log LogMsg.sftpSessionStarted, Event.serve]
      ++ (match run.Serve with
          | some err =>
            if err ≠ GoError.EOF then [Event.log (LogMsg.sftpServerError err)] else []
          | none => [])
      ++ [Event.log LogMsg.sftpSessionEnded, Event.serverClose]

/-- How one pass through the body of the `for req := range requests` loop ends. -/
inductive Flow where
  /-- the loop takes the next request (`continue`, or the end of the body) -/
  | next
  /-- the function returns (line 119) -/
  | ret
  deriving DecidableEq, Repr

/-- The body of the loop of `handleChannelRequests` (lines 106-125) for the request at
position `i`. -/
def loopBody (run : SftpRun) (i : Nat) (req : Request) : List Event × Flow :=
  if req.Type_ = lit "subsystem" then
    if req.Payload.length < 4 then
      ([Event.reply i false], Flow.next)
    else
      let subsystem : GoString := req.Payload.drop 4
      if subsystem = lit "sftp" then
        ([Event.reply i true, Event.log LogMsg.startingSftpSubsystem, Event.callHandleSFTP]
          ++ handleSFTP run ++ [Event.returnHandleSFTP], Flow.ret)
      else
        ([Event.reply i false], Flow.next)
  else
    ([Event.reply i false], Flow.next)

/-- The loop `for req := range requests` of `handleChannelRequests`, from position `i` of
the stream on.  The result is the events and the requests left unread in the stream. -/
def requestLoop (run : SftpRun) : Nat → List Request → List Event × List Request
  | _, [] => ([], [])
  | i, req :: rest =>
    match loopBody run i req with
    | (evs, Flow.ret) => (evs, rest)
    | (evs, Flow.next) =>
      let r := requestLoop run (i + 1) rest
      (evs ++ r.1, r.2)

/-- Function `handleChannelRequests`: the loop, then the deferred `channel.Close()`. -/
def handleChannelRequests (run : SftpRun) (requests : List Request) :
    List Event × List Request :=
  let r := requestLoop run 0 requests
  (r.1 ++ [Event.channelClose], r.2)

/-! ## The channel dispatcher (lines 69-100) -/

/-- The type `ssh.RejectionReason`. -/
inductive RejectionReason where
  | Prohibited
  | ConnectionFailed
  | UnknownChannelType
  | ResourceShortage
  deriving DecidableEq, Repr

/-- An `ssh.NewChannel` as the dispatcher sees it: its channel type, and the error its
`Accept()` returns when called (`none`: it yields the channel and its request stream). -/
structure NewChannel where
  ChannelType : GoString
  Accept : Option GoError
  deriving DecidableEq, Repr

/-- What a successful `ssh.NewServerConn` yields: the connection (its remote address and
client version are logged) and the channel-open events `chans` delivers until the
connection ends. -/
structure ServerConn where
  RemoteAddr : GoString
  ClientVersion : GoString
  chans : List NewChannel
  deriving DecidableEq, Repr

/-- The observable actions of `handleConnection`.  A channel-open event is identified by
its position in `chans`. -/
inductive ConnEvent where
  /-- a call of `log.Printf` -/
  | log (m : LogMsg)
  /-- the call `ssh.NewServerConn(conn, config)` -/
  | newServerConn
  /-- the statement `go ssh.DiscardRequests(reqs)` -/
  | goDiscardRequests
  /-- the call `newChannel.Reject(reason, message)` on the event at position `ch` -/
  | reject (ch : Nat) (reason : RejectionReason) (message : GoString)
  /-- the call `newChannel.Accept()` on the event at position `ch` -/
  | accept (ch : Nat)
  /-- the statement `go handleChannelRequests(channel, requests)` for the channel
  accepted at `ch` -/
  | goHandleChannelRequests (ch : Nat)
  /-- the deferred `sshConn.Close()` -/
  | sshConnClose
  /-- the deferred `conn.Close()` -/
  | connClose
  deriving DecidableEq, Repr

/-- The loop `for newChannel := range chans` of `handleConnection` (lines 85-99), from
position `i` on. -/
def channelLoop : Nat → List NewChannel → List ConnEvent
  | _, [] => []
  | i, newChannel :: rest =>
    if newChannel.ChannelType ≠ lit "session" then
      ConnEvent.reject i RejectionReason.UnknownChannelType
          (lit "unknown channel type: " ++ newChannel.ChannelType)
        :: channelLoop (i + 1) rest
    else
      match newChannel.Accept with
      | some err =>
        ConnEvent.accept i :: ConnEvent.log (LogMsg.couldNotAcceptChannel err)
          :: channelLoop (i + 1) rest
      | none =>
        ConnEvent.accept i :: ConnEvent.goHandleChannelRequests i
          :: channelLoop (i + 1) rest

/-- Function `handleConnection`.  `remoteAddr` is `conn.RemoteAddr()` and `handshake` is
what `ssh.NewServerConn(conn, config)` returns. -/
def handleConnection (remoteAddr : GoString) (handshake : Except GoError ServerConn) :
    List ConnEvent :=
  [ConnEvent.log (LogMsg.newConnection remoteAddr), ConnEvent.newServerConn]
    ++ (match handshake with
        | Except.error err =>
          [ConnEvent.log (LogMsg.failedHandshake remoteAddr err)]
        | Except.ok sshConn =>
          [ConnEvent.log
              (LogMsg.connectionEstablished sshConn.RemoteAddr sshConn.ClientVersion),
            ConnEvent.goDiscardRequests]
            ++ channelLoop 0 sshConn.chans ++ [ConnEvent.sshConnClose])
    ++ [ConnEvent.connClose]

/-! ## The host key store (lines 147-201)

The three file-system calls of the program act on a small model of the file system: a
table from paths to files and directories.  `os.Stat` succeeds exactly on the paths that
have an entry, `ioutil.ReadFile` needs a file with the owner-read bit, and
`ioutil.WriteFile` replaces the data of a file with the owner-write bit or creates a file
with the mode it is given (the process umask is taken to leave the owner bits alone) where
the process may create one; a failed write is taken to leave the table as it was. -/

/-- Equality of `(value, error)` results is decidable. -/
instance decEqExcept {ε α : Type} [DecidableEq ε] [DecidableEq α] :
    DecidableEq (Except ε α)
  | Except.ok a, Except.ok b =>
    if h : a = b then isTrue (congrArg Except.ok h)
    else isFalse (fun e => h (Except.ok.inj e))
  | Except.error a, Except.error b =>
    if h : a = b then isTrue (congrArg Except.error h)
    else isFalse (fun e => h (Except.error.inj e))
  | Except.ok _, Except.error _ => isFalse (fun e => Except.noConfusion e)
  | Except.error _, Except.ok _ => isFalse (fun e => Except.noConfusion e)

/-- File paths are Go strings. -/
abbrev Path := GoString

/-- An entry of the file system. -/
inductive Node where
  | file (data : List Byte) (mode : Nat)
  | dir
  deriving DecidableEq, Repr

/-- The file system: its entries (for a path, the first pair with that path counts), and
the paths at which the process cannot create a file (no parent directory, or one that is
not writable). -/
structure FS where
  entries : List (Path × Node)
  noCreate : List Path
  deriving DecidableEq, Repr

/-- The entry at a path. -/
def FS.lookup (fs : FS) (path : Path) : Option Node :=
  (fs.entries.find? (fun e => decide (e.1 = path))).map Prod.snd

/-- The file system with the entry at `path` set to `n`. -/
def FS.store (fs : FS) (path : Path) (n : Node) : FS :=
  FS.mk ((path, n) :: fs.entries.filter (fun e => decide (e.1 ≠ path))) fs.noCreate

/-- The owner-read bit (0400) of a file mode. -/
def ownerCanRead (mode : Nat) : Bool := mode / 0o400 % 2 == 1

/-- The owner-write bit (0200) of a file mode. -/
def ownerCanWrite (mode : Nat) : Bool := mode / 0o200 % 2 == 1

/-- The error of `os.Stat(path)`; `none` is `nil`. -/
def os_Stat (fs : FS) (path : Path) : Option GoError :=
  match fs.lookup path with
  | some _ => none
  | none => some (GoError.ext (lit "no such file or directory"))

/-- The call `ioutil.ReadFile(path)`. -/
def ioutil_ReadFile (fs : FS) (path : Path) : Except GoError (List Byte) :=
  match fs.lookup path with
  | some (Node.file data mode) =>
    if ownerCanRead mode then Except.ok data
    else Except.error (GoError.ext (lit "permission denied"))
  | some Node.dir => Except.error (GoError.ext (lit "is a directory"))
  | none => Except.error (GoError.ext (lit "no such file or directory"))

/-- The call `ioutil.WriteFile(path, data, perm)`: the new file system, or the error. -/
def ioutil_WriteFile (fs : FS) (path : Path) (data : List Byte) (perm : Nat) :
    Except GoError FS :=
  match fs.lookup path with
  | some (Node.file _ mode) =>
    if ownerCanWrite mode then Except.ok (fs.store path (Node.file data mode))
    else Except.error (GoError.ext (lit "permission denied"))
  | some Node.dir => Except.error (GoError.ext (lit "is a directory"))
  | none =>
    if path ∈ fs.noCreate then Except.error (GoError.ext (lit "cannot create file"))
    else Except.ok (fs.store path (Node.file data perm))

/-- A `pem.Block`. -/
structure PemBlock where
  Type_ : GoString
  Headers : List (GoString × GoString)
  Bytes : List Byte
  deriving DecidableEq, Repr

/-- The library functions the host key store calls, for a type `Signer` of `ssh.Signer`
values.  An `ed25519.PrivateKey` is a byte slice. -/
structure Crypto (Signer : Type) where
  /-- the function `x509.MarshalPKCS8PrivateKey` -/
  MarshalPKCS8PrivateKey : List Byte → Except GoError (List Byte)
  /-- the function `pem.EncodeToMemory` -/
  EncodeToMemory : PemBlock → List Byte
  /-- the function `ssh.ParsePrivateKey` -/
  ParsePrivateKey : List Byte → Except GoError Signer

/-- What a call of the host key store does: the returned `(ssh.Signer, error)`, the file
system it leaves, and the lines logged. -/
structure HostKeyOutcome (Signer : Type) where
  result : Except GoError Signer
  fs : FS
  logged : List LogMsg

/-- Function `loadHostKey`. -/
def loadHostKey {Signer : Type} (lib : Crypto Signer) (fs : FS) (path : Path) :
    Except GoError Signer :=
  match ioutil_ReadFile fs path with
  | Except.error err => Except.error (GoError.failedToReadHostKey err)
  | Except.ok privateBytes =>
    match lib.ParsePrivateKey privateBytes with
    | Except.error err => Except.error (GoError.failedToParseHostKey err)
    | Except.ok private_ => Except.ok private_

/-- Function `generateAndSaveHostKey`.  `generated` is the private key, or the error, that
`ed25519.GenerateKey(rand.Reader)` returns in this call. -/
def generateAndSaveHostKey {Signer : Type} (lib : Crypto Signer)
    (generated : Except GoError (List Byte)) (fs : FS) (path : Path) :
    HostKeyOutcome Signer :=
  match generated with
  | Except.error err => HostKeyOutcome.mk (Except.error (GoError.failedToGenerateKey err)) fs []
  | Except.ok priv =>
    match lib.MarshalPKCS8PrivateKey priv with
    | Except.error err =>
      HostKeyOutcome.mk (Except.error (GoError.failedToMarshalPrivateKey err)) fs []
    | Except.ok bytes =>
      let privatePem := lib.EncodeToMemory (PemBlock.mk (lit "PRIVATE KEY") [] bytes)
      match ioutil_WriteFile fs path privatePem 0o600 with
      | Except.error err =>
        HostKeyOutcome.mk (Except.error (GoError.failedToWriteHostKey err)) fs []
      | Except.ok fs1 =>
        match lib.ParsePrivateKey privatePem with
        | Except.error err =>
          HostKeyOutcome.mk (Except.error (GoError.failedToParseGeneratedKey err)) fs1
            [LogMsg.hostKeySaved path]
        | Except.ok signer => HostKeyOutcome.mk (Except.ok signer) fs1 [LogMsg.hostKeySaved path]

/-- Function `loadOrGenerateHostKey`. -/
def loadOrGenerateHostKey {Signer : Type} (lib : Crypto Signer)
    (generated : Except GoError (List Byte)) (fs : FS) (path : Path) :
    HostKeyOutcome Signer :=
  if os_Stat fs path = none then
    HostKeyOutcome.mk (loadHostKey lib fs path) fs [LogMsg.loadingExistingHostKey path]
  else
    let r := generateAndSaveHostKey lib generated fs path
    HostKeyOutcome.mk r.result r.fs (LogMsg.generatingNewHostKey path :: r.logged)

/-! ## Vocabulary of the statements about the router -/

/-- The request is a subsystem request whose payload has at least 4 bytes and, after its
first 4 bytes, is exactly the string "sftp". -/
def namesSftp (req : Request) : Prop :=
  req.Type_ = lit "subsystem" ∧ 4 ≤ req.Payload.length ∧ req.Payload.drop 4 = lit "sftp"

instance : DecidablePred namesSftp := fun req =>
  inferInstanceAs (Decidable (req.Type_ = lit "subsystem" ∧ 4 ≤ req.Payload.length
    ∧ req.Payload.drop 4 = lit "sftp"))

/-- The events of an accepted sftp request at position `i`: the accept reply, the log
line, and the call of `handleSFTP` from entry to return. -/
def dispatchEvents (run : SftpRun) (i : Nat) : List Event :=
  [Event.reply i true, Event.log LogMsg.startingSftpSubsystem, Event.callHandleSFTP]
    ++ handleSFTP run ++ [Event.returnHandleSFTP]

/-- The reject replies to the `n` requests at positions `i`, `i + 1`, ... in order. -/
def rejects : Nat → Nat → List Event
  | _, 0 => []
  | i, n + 1 => Event.reply i false :: rejects (i + 1) n

/-- The event is a call of `Reply` on the request at position `k`. -/
def isReplyTo (k : Nat) : Event → Bool
  | Event.reply j _ => decide (j = k)
  | _ => false

/-- The event is a call of `Reply`, on whatever request. -/
def isReply : Event → Bool
  | Event.reply _ _ => true
  | _ => false

/-- The number of `Reply` calls on the request at position `k`. -/
def replyCount (k : Nat) (evs : List Event) : Nat :=
  evs.countP (isReplyTo k)

/-- The position of the first request that names sftp (the length of the list when there
is none). -/
def firstSftp (requests : List Request) : Nat :=
  requests.findIdx (fun r => decide (namesSftp r))

/-- The reading of claim C3: the first request of type "subsystem" in the sequence exists
and names sftp. -/
def firstSubsystemNamesSftp (requests : List Request) : Prop :=
  match requests.find? (fun r => decide (r.Type_ = lit "subsystem")) with
  | some r => namesSftp r
  | none => False

instance : DecidablePred firstSubsystemNamesSftp := fun requests => by
  unfold firstSubsystemNamesSftp
  cases requests.find? (fun r => decide (r.Type_ = lit "subsystem")) with
  | none => exact isFalse (fun h => h)
  | some r => exact inferInstanceAs (Decidable (namesSftp r))

/-- A subsystem request for the name `name`, encoded the standard way: a 4-byte length
(here for names shorter than 256 bytes) and the name. -/
def subsystemRequest (name : GoString) : Request :=
  Request.mk (lit "subsystem") true ([0, 0, 0, Fin.ofNat name.length] ++ name)

/-- A run of the sftp package in which the server starts and serves until end of file. -/
def cleanRun : SftpRun := SftpRun.mk none (some GoError.EOF)

/-- Two requests on one channel: subsystem "shell", then subsystem "sftp". -/
def shellThenSftp : List Request :=
  [subsystemRequest (lit "shell"), subsystemRequest (lit "sftp")]

/-- Two requests on one channel: subsystem "sftp", then subsystem "shell". -/
def sftpThenShell : List Request :=
  [subsystemRequest (lit "sftp"), subsystemRequest (lit "shell")]

/-- A subsystem request whose declared length, 0x63, is not the length of the name that
follows, "sftp". -/
def wrongLengthSftp : Request :=
  Request.mk (lit "subsystem") true ([0, 0, 0, 0x63] ++ lit "sftp")

/-! ## Vocabulary of the statements about the dispatcher -/

/-- The channel-open event an action is about, if any. -/
def chanOf : ConnEvent → Option Nat
  | ConnEvent.reject ch _ _ => some ch
  | ConnEvent.accept ch => some ch
  | ConnEvent.goHandleChannelRequests ch => some ch
  | _ => none

/-- The actions of a trace that are about the channel-open event at position `k`. -/
def actionsOn (k : Nat) (evs : List ConnEvent) : List ConnEvent :=
  evs.filter (fun e => decide (chanOf e = some k))

/-- The action starts a router task. -/
def isRouterStart : ConnEvent → Bool
  | ConnEvent.goHandleChannelRequests _ => true
  | _ => false

/-- The channel-open event is of type "session" and its `Accept()` succeeds. -/
def sessionAccepted (c : NewChannel) : Bool :=
  decide (c.ChannelType = lit "session") && c.Accept.isNone

/-- Four channel-open events: a session, a "direct-tcpip" channel, a session whose accept
fails, a session. -/
def fourChannels : List NewChannel :=
  [NewChannel.mk (lit "session") none,
   NewChannel.mk (lit "direct-tcpip") none,
   NewChannel.mk (lit "session") (some (GoError.ext (lit "channel closed"))),
   NewChannel.mk (lit "session") none]

/-! ## Inputs for the statements about the host key store -/

/-- A stand-in for the cryptographic library, to run the host key store on concrete
inputs: the marshalled form of a key is the key, a block is encoded as its label followed
by its bytes, and the parse of an encoded "PRIVATE KEY" block gives back the bytes. -/
def toyCrypto : Crypto (List Byte) :=
  Crypto.mk
    (fun priv => Except.ok priv)
    (fun b => b.Type_ ++ b.Bytes)
    (fun data =>
      if data.take 11 = lit "PRIVATE KEY" then Except.ok (data.drop 11)
      else Except.error (GoError.ext (lit "ssh: no key found")))

/-- The default host key path. -/
def keyPath : Path := lit "/keys/host_ed25519_key"

/-- A file system with a key file at the default path. -/
def fsWithKey : FS :=
  FS.mk [(keyPath, Node.file (lit "PRIVATE KEY" ++ [1, 2, 3]) 0o600)] []

/-- A file system with the directory of the default path and nothing in it. -/
def fsWithoutKey : FS := FS.mk [(lit "/keys", Node.dir)] []

/-- A file system in which no file can be created at the default path. -/
def fsReadOnly : FS := FS.mk [(lit "/keys", Node.dir)] [keyPath]

/-! ## The password callback -/

/-- C1: the password callback returns a nil error if and only if the offered user name
equals the configured user name and the offered password bytes equal the configured
password (equality of byte sequences, hence exact and case-sensitive); in every other
case it returns the non-nil error "password rejected".  The permissions are nil either
way. -/
theorem PasswordCallback_accepts_iff (username password : GoString) (c : ConnMetadata)
    (pass : List Byte) :
    ((PasswordCallback username password c pass).err = none
        ↔ c.User = username ∧ pass = password)
    ∧ (¬ (c.User = username ∧ pass = password)
        → (PasswordCallback username password c pass).err
            = some (GoError.passwordRejected c.User))
    ∧ (PasswordCallback username password c pass).perms = none := by
  unfold PasswordCallback
  by_cases h : c.User = username ∧ pass = password
  · simp [h]
  · simp [h]

/-- Witness of C1: with the default credentials, the password "testpass" is accepted for
"testuser" and the password "Testpass" is not. -/
theorem PasswordCallback_accepts_iff_witness :
    (PasswordCallback (lit "testuser") (lit "testpass")
        (ConnMetadata.mk (lit "testuser") (lit "10.0.0.1:5000")) (lit "testpass")).err = none
    ∧ (PasswordCallback (lit "testuser") (lit "testpass")
        (ConnMetadata.mk (lit "testuser") (lit "10.0.0.1:5000")) (lit "Testpass")).err
      = some (GoError.passwordRejected (lit "testuser")) :=
  ⟨(PasswordCallback_accepts_iff (lit "testuser") (lit "testpass")
      (ConnMetadata.mk (lit "testuser") (lit "10.0.0.1:5000")) (lit "testpass")).1.mpr
      (by decide),
   (PasswordCallback_accepts_iff (lit "testuser") (lit "testpass")
      (ConnMetadata.mk (lit "testuser") (lit "10.0.0.1:5000")) (lit "Testpass")).2.1
      (by decide)⟩

/-! ## Lemmas about the router -/

theorem loopBody_of_namesSftp (run : SftpRun) (i : Nat) (req : Request)
    (h : namesSftp req) : loopBody run i req = (dispatchEvents run i, Flow.ret) := by
  obtain ⟨h1, h2, h3⟩ := h
  have h2n : ¬ req.Payload.length < 4 := by omega
  simp [loopBody, dispatchEvents, h1, h2n, h3]

theorem loopBody_of_not_namesSftp (run : SftpRun) (i : Nat) (req : Request)
    (h : ¬ namesSftp req) : loopBody run i req = ([Event.reply i false], Flow.next) := by
  unfold loopBody
  by_cases h1 : req.Type_ = lit "subsystem"
  · by_cases h2 : req.Payload.length < 4
    · simp [h1, h2]
    · by_cases h3 : req.Payload.drop 4 = lit "sftp"
      · exact absurd ⟨h1, by omega, h3⟩ h
      · simp [h1, h2, h3]
  · simp [h1]

theorem requestLoop_cons_of_namesSftp (run : SftpRun) (i : Nat) (req : Request)
    (rest : List Request) (h : namesSftp req) :
    requestLoop run i (req :: rest) = (dispatchEvents run i, rest) := by
  simp [requestLoop, loopBody_of_namesSftp run i req h]

theorem requestLoop_cons_of_not_namesSftp (run : SftpRun) (i : Nat) (req : Request)
    (rest : List Request) (h : ¬ namesSftp req) :
    requestLoop run i (req :: rest)
      = (Event.reply i false :: (requestLoop run (i + 1) rest).1,
          (requestLoop run (i + 1) rest).2) := by
  simp [requestLoop, loopBody_of_not_namesSftp run i req h]

theorem firstSftp_le (requests : List Request) : firstSftp requests ≤ requests.length := by
  unfold firstSftp
  exact List.findIdx_le_length _

theorem firstSftp_cons_of_namesSftp (req : Request) (rest : List Request)
    (h : namesSftp req) : firstSftp (req :: rest) = 0 := by
  simp [firstSftp, List.findIdx_cons, h]

theorem firstSftp_cons_of_not_namesSftp (req : Request) (rest : List Request)
    (h : ¬ namesSftp req) : firstSftp (req :: rest) = firstSftp rest + 1 := by
  simp [firstSftp, List.findIdx_cons, h]

/-- The whole loop in closed form: reject replies up to the first request that names
sftp, then, when there is one, its dispatch; what follows it stays unread. -/
theorem requestLoop_eq (run : SftpRun) (requests : List Request) (i : Nat) :
    requestLoop run i requests
      = (rejects i (firstSftp requests)
           ++ (if firstSftp requests < requests.length
                then dispatchEvents run (i + firstSftp requests) else []),
         requests.drop (firstSftp requests + 1)) := by
  induction requests generalizing i with
  | nil => simp [requestLoop, firstSftp, rejects]
  | cons req rest ih =>
    by_cases h : namesSftp req
    · rw [requestLoop_cons_of_namesSftp run i req rest h,
        firstSftp_cons_of_namesSftp req rest h]
      simp [rejects]
    · rw [requestLoop_cons_of_not_namesSftp run i req rest h,
        firstSftp_cons_of_not_namesSftp req rest h, ih (i + 1)]
      have e : i + 1 + firstSftp rest = i + (firstSftp rest + 1) := by omega
      simp [rejects, e]

theorem length_rejects (i n : Nat) : (rejects i n).length = n := by
  induction n generalizing i with
  | zero => rfl
  | succ n ih => simp [rejects, ih]

theorem mem_rejects (e : Event) (i n : Nat) :
    e ∈ rejects i n ↔ ∃ k, i ≤ k ∧ k < i + n ∧ e = Event.reply k false := by
  induction n generalizing i with
  | zero =>
    simp only [rejects, List.not_mem_nil, false_iff]
    rintro ⟨k, h1, h2, _⟩
    omega
  | succ n ih =>
    simp only [rejects, List.mem_cons, ih]
    constructor
    · rintro (h | ⟨k, h1, h2, h3⟩)
      · exact ⟨i, le_refl i, by omega, h⟩
      · exact ⟨k, by omega, by omega, h3⟩
    · rintro ⟨k, h1, h2, h3⟩
      by_cases hk : k = i
      · left; rw [h3, hk]
      · right; exact ⟨k, by omega, by omega, h3⟩

theorem getElem?_rejects (i n k : Nat) (h : k < n) :
    (rejects i n)[k]? = some (Event.reply (i + k) false) := by
  induction n generalizing i k with
  | zero => omega
  | succ n ih =>
    cases k with
    | zero => simp [rejects]
    | succ k =>
      have e : i + 1 + k = i + (k + 1) := by omega
      simp [rejects, ih (i + 1) k (by omega), e]

theorem replyCount_append (k : Nat) (xs ys : List Event) :
    replyCount k (xs ++ ys) = replyCount k xs + replyCount k ys := by
  simp [replyCount, List.countP_append]

theorem replyCount_rejects (k i n : Nat) :
    replyCount k (rejects i n) = if i ≤ k ∧ k < i + n then 1 else 0 := by
  induction n generalizing i with
  | zero =>
    have h3 : ¬ (i ≤ k ∧ k < i + 0) := by omega
    rw [if_neg h3]
    rfl
  | succ n ih =>
    have h := ih (i + 1)
    unfold replyCount at h ⊢
    simp only [rejects, List.countP_cons, h, isReplyTo]
    by_cases hk : i = k
    · subst hk
      simp
    · have h1 : decide (i = k) = false := by simp [hk]
      simp only [h1]
      by_cases h2 : i + 1 ≤ k ∧ k < i + 1 + n
      · have h3 : i ≤ k ∧ k < i + (n + 1) := ⟨by omega, by omega⟩
        simp [h2, h3]
      · have h3 : ¬ (i ≤ k ∧ k < i + (n + 1)) := by
          intro h4
          exact h2 ⟨by omega, by omega⟩
        simp [h2, h3]

/-- Inside `handleSFTP` no request is replied to, `handleSFTP` is not entered again and
the channel is not closed by the router. -/
theorem handleSFTP_events (run : SftpRun) (e : Event) (h : e ∈ handleSFTP run) :
    isReply e = false ∧ e ≠ Event.callHandleSFTP ∧ e ≠ Event.returnHandleSFTP
      ∧ e ≠ Event.channelClose := by
  obtain ⟨ns, sv⟩ := run
  cases ns with
  | some err =>
    simp only [handleSFTP, List.mem_cons, List.mem_singleton, List.not_mem_nil,
      or_false] at h
    rcases h with h | h <;> subst h <;> simp [isReply]
  | none =>
    cases sv with
    | none =>
      simp only [handleSFTP, List.mem_cons, List.mem_singleton, List.not_mem_nil,
        or_false, List.mem_append, List.append_nil] at h
      rcases h with (h | h | h) | h | h <;> subst h <;> simp [isReply]
    | some err =>
      by_cases he : err = GoError.EOF
      · simp only [handleSFTP, he, List.mem_cons, List.mem_singleton, List.not_mem_nil,
          or_false, List.mem_append, List.append_nil, ne_eq, not_true_eq_false,
          if_false] at h
        rcases h with (h | h | h) | h | h <;> subst h <;> simp [isReply]
      · simp only [handleSFTP, he, List.mem_cons, List.mem_singleton, List.not_mem_nil,
          or_false, List.mem_append, ne_eq, not_false_eq_true, if_true] at h
        rcases h with ((h | h | h) | h) | h | h <;> subst h <;> simp [isReply]

theorem replyCount_handleSFTP (k : Nat) (run : SftpRun) :
    replyCount k (handleSFTP run) = 0 := by
  unfold replyCount
  rw [List.countP_eq_zero]
  intro e he
  have h := (handleSFTP_events run e he).1
  cases e <;> simp_all [isReply, isReplyTo]

theorem replyCount_dispatchEvents (k i : Nat) (run : SftpRun) :
    replyCount k (dispatchEvents run i) = if i = k then 1 else 0 := by
  unfold dispatchEvents
  rw [replyCount_append, replyCount_append, replyCount_handleSFTP]
  by_cases h : i = k <;> simp [replyCount, isReplyTo, h]

theorem count_call_handleSFTP (run : SftpRun) :
    (handleSFTP run).count Event.callHandleSFTP = 0 := by
  rw [List.count_eq_zero]
  intro h
  exact (handleSFTP_events run _ h).2.1 rfl

theorem count_close_handleSFTP (run : SftpRun) :
    (handleSFTP run).count Event.channelClose = 0 := by
  rw [List.count_eq_zero]
  intro h
  exact (handleSFTP_events run _ h).2.2.2 rfl

theorem count_call_rejects (i n : Nat) : (rejects i n).count Event.callHandleSFTP = 0 := by
  rw [List.count_eq_zero, mem_rejects]
  rintro ⟨k, _, _, h⟩
  cases h

theorem count_close_rejects (i n : Nat) : (rejects i n).count Event.channelClose = 0 := by
  rw [List.count_eq_zero, mem_rejects]
  rintro ⟨k, _, _, h⟩
  cases h

theorem firstSftp_lt_iff (requests : List Request) :
    firstSftp requests < requests.length ↔ ∃ r ∈ requests, namesSftp r := by
  unfold firstSftp
  rw [List.findIdx_lt_length]
  simp

/-- The whole of `handleChannelRequests` when some request names sftp. -/
theorem handleChannelRequests_of_sftp (run : SftpRun) (requests : List Request)
    (h : firstSftp requests < requests.length) :
    handleChannelRequests run requests
      = (rejects 0 (firstSftp requests) ++ dispatchEvents run (firstSftp requests)
           ++ [Event.channelClose],
         requests.drop (firstSftp requests + 1)) := by
  simp [handleChannelRequests, requestLoop_eq, h]

/-- The whole of `handleChannelRequests` when no request names sftp. -/
theorem handleChannelRequests_of_no_sftp (run : SftpRun) (requests : List Request)
    (h : ¬ firstSftp requests < requests.length) :
    handleChannelRequests run requests
      = (rejects 0 requests.length ++ [Event.channelClose], []) := by
  have e : firstSftp requests = requests.length := by
    have := firstSftp_le requests
    omega
  simp [handleChannelRequests, requestLoop_eq, e]

/-! ## The claims about the router -/

/-- C2: for a request handled by the loop of handleChannelRequests, the reply is accept,
the channel is handed to handleSFTP and the function returns (DISPATCHED) if and only if
the type is "subsystem", the payload has at least 4 bytes and the payload after its first
4 bytes is exactly "sftp"; for a non-subsystem type, a payload shorter than 4 bytes or
any other name the only action is a reject reply and the loop goes on with the next
request. -/
theorem loopBody_dispatches_iff (run : SftpRun) (i : Nat) (req : Request) :
    (Event.reply i true ∈ (loopBody run i req).1 ↔ namesSftp req)
    ∧ (Event.callHandleSFTP ∈ (loopBody run i req).1 ↔ namesSftp req)
    ∧ ((loopBody run i req).2 = Flow.ret ↔ namesSftp req)
    ∧ (namesSftp req → ∀ rest,
        loopBody run i req = (dispatchEvents run i, Flow.ret)
        ∧ requestLoop run i (req :: rest) = (dispatchEvents run i, rest))
    ∧ ((req.Type_ ≠ lit "subsystem" ∨ req.Payload.length < 4
          ∨ req.Payload.drop 4 ≠ lit "sftp") → ∀ rest,
        loopBody run i req = ([Event.reply i false], Flow.next)
        ∧ requestLoop run i (req :: rest)
            = (Event.reply i false :: (requestLoop run (i + 1) rest).1,
                (requestLoop run (i + 1) rest).2)) := by
  by_cases h : namesSftp req
  · have hb := loopBody_of_namesSftp run i req h
    refine ⟨?_, ?_, ?_, ?_, ?_⟩
    · simp [hb, h, dispatchEvents]
    · simp [hb, h, dispatchEvents]
    · simp [hb, h]
    · intro _ rest
      exact ⟨hb, requestLoop_cons_of_namesSftp run i req rest h⟩
    · intro hn
      obtain ⟨h1, h2, h3⟩ := h
      rcases hn with hn | hn | hn
      · exact absurd h1 hn
      · omega
      · exact absurd h3 hn
  · have hb := loopBody_of_not_namesSftp run i req h
    refine ⟨?_, ?_, ?_, ?_, ?_⟩
    · simp [hb, h]
    · simp [hb, h]
    · simp [hb, h]
    · intro hs
      exact absurd hs h
    · intro _ rest
      exact ⟨hb, requestLoop_cons_of_not_namesSftp run i req rest h⟩

/-- Witness of C2: the standard encoding of subsystem "sftp" is dispatched and the loop
leaves the following request unread; subsystem "shell" is rejected and the loop goes
on. -/
theorem loopBody_dispatches_iff_witness :
    namesSftp (subsystemRequest (lit "sftp"))
    ∧ requestLoop cleanRun 0 sftpThenShell
        = (dispatchEvents cleanRun 0, [subsystemRequest (lit "shell")])
    ∧ (subsystemRequest (lit "shell")).Payload.drop 4 ≠ lit "sftp"
    ∧ loopBody cleanRun 0 (subsystemRequest (lit "shell"))
        = ([Event.reply 0 false], Flow.next) :=
  ⟨by decide,
   ((loopBody_dispatches_iff cleanRun 0 (subsystemRequest (lit "sftp"))).2.2.2.1
      (by decide) [subsystemRequest (lit "shell")]).2,
   by decide,
   ((loopBody_dispatches_iff cleanRun 0 (subsystemRequest (lit "shell"))).2.2.2.2
      (Or.inr (Or.inr (by decide))) []).1⟩

/-- C3 as stated fails: on the requests subsystem "shell", subsystem "sftp" the first
subsystem-typed request does not name sftp, yet the channel is handed to handleSFTP (at
the second request). -/
theorem handoff_after_rejected_subsystem :
    ¬ firstSubsystemNamesSftp shellThenSftp
    ∧ Event.callHandleSFTP ∈ (handleChannelRequests cleanRun shellThenSftp).1 := by
  decide

/-- The request at position `firstSftp` names sftp, when there is such a position. -/
theorem namesSftp_at_firstSftp (requests : List Request)
    (h : firstSftp requests < requests.length) :
    ∃ r, requests[firstSftp requests]? = some r ∧ namesSftp r := by
  induction requests with
  | nil => simp at h
  | cons req rest ih =>
    by_cases hn : namesSftp req
    · rw [firstSftp_cons_of_namesSftp req rest hn]
      exact ⟨req, by simp, hn⟩
    · rw [firstSftp_cons_of_not_namesSftp req rest hn] at h ⊢
      simp only [List.length_cons] at h
      obtain ⟨r, hr, hs⟩ := ih (by omega)
      exact ⟨r, by simpa using hr, hs⟩

/-- No request before position `firstSftp` names sftp. -/
theorem not_namesSftp_before_firstSftp (requests : List Request) (k : Nat) (r : Request)
    (hk : k < firstSftp requests) (hr : requests[k]? = some r) : ¬ namesSftp r := by
  induction requests generalizing k with
  | nil => simp at hr
  | cons req rest ih =>
    by_cases hn : namesSftp req
    · rw [firstSftp_cons_of_namesSftp req rest hn] at hk
      omega
    · rw [firstSftp_cons_of_not_namesSftp req rest hn] at hk
      cases k with
      | zero =>
        simp only [List.getElem?_cons_zero, Option.some.injEq] at hr
        rw [← hr]
        exact hn
      | succ k =>
        simp only [List.getElem?_cons_succ] at hr
        exact ih k (by omega) hr

/-- C3 amended: handleChannelRequests hands the channel to handleSFTP if and only if some
request of the sequence is a subsystem request naming sftp, and it does so at the first
such request: with n the position of the first request that names sftp, the whole run is
the reject replies to requests 0 .. n-1 in order, the accept reply to request n, the log
line, the call of handleSFTP with its events and its return, and the close of the
channel, and the requests after position n stay unread; nothing else happens in between
(no handoff and no close of the channel before request n, no reply after it).  When no
request names sftp the whole run is the reject replies to all requests in order and the
close of the channel. -/
theorem handoff_iff_some_request_names_sftp (run : SftpRun) (requests : List Request) :
    (Event.callHandleSFTP ∈ (handleChannelRequests run requests).1
        ↔ ∃ r ∈ requests, namesSftp r)
    ∧ ((∃ r ∈ requests, namesSftp r) →
        firstSftp requests < requests.length
        ∧ (∃ r, requests[firstSftp requests]? = some r ∧ namesSftp r)
        ∧ (∀ k r, k < firstSftp requests → requests[k]? = some r → ¬ namesSftp r)
        ∧ handleChannelRequests run requests
            = (rejects 0 (firstSftp requests)
                ++ [Event.reply (firstSftp requests) true,
                    Event.log LogMsg.startingSftpSubsystem, Event.callHandleSFTP]
                ++ handleSFTP run
                ++ [Event.returnHandleSFTP, Event.channelClose],
               requests.drop (firstSftp requests + 1)))
    ∧ ((∀ r ∈ requests, ¬ namesSftp r) →
        handleChannelRequests run requests
          = (rejects 0 requests.length ++ [Event.channelClose], []))
    ∧ (∀ i n, (rejects i n).length = n
        ∧ ∀ k, k < n → (rejects i n)[k]? = some (Event.reply (i + k) false))
    ∧ (∀ k, k < firstSftp requests →
        (handleChannelRequests run requests).1[k]? = some (Event.reply k false))
    ∧ (firstSftp requests < requests.length →
        (handleChannelRequests run requests).1[firstSftp requests]?
          = some (Event.reply (firstSftp requests) true)) := by
  have hrej : ∀ i n, (rejects i n).length = n
      ∧ ∀ k, k < n → (rejects i n)[k]? = some (Event.reply (i + k) false) :=
    fun i n => ⟨length_rejects i n, fun k hk => getElem?_rejects i n k hk⟩
  by_cases h : firstSftp requests < requests.length
  · have hex : ∃ r ∈ requests, namesSftp r := (firstSftp_lt_iff requests).mp h
    have hclosed : handleChannelRequests run requests
        = (rejects 0 (firstSftp requests)
            ++ [Event.reply (firstSftp requests) true,
                Event.log LogMsg.startingSftpSubsystem, Event.callHandleSFTP]
            ++ handleSFTP run
            ++ [Event.returnHandleSFTP, Event.channelClose],
           requests.drop (firstSftp requests + 1)) := by
      rw [handleChannelRequests_of_sftp run requests h]
      simp [dispatchEvents]
    refine ⟨?_, ?_, ?_, hrej, ?_, ?_⟩
    · rw [hclosed]
      simp [hex]
    · intro _
      exact ⟨h, namesSftp_at_firstSftp requests h,
        fun k r hk hr => not_namesSftp_before_firstSftp requests k r hk hr, hclosed⟩
    · intro hall
      obtain ⟨r, hr, hs⟩ := hex
      exact absurd hs (hall r hr)
    · intro k hk
      rw [handleChannelRequests_of_sftp run requests h]
      rw [List.append_assoc, List.getElem?_append_left (by rw [length_rejects]; exact hk),
        getElem?_rejects 0 _ k hk]
      simp
    · intro _
      rw [handleChannelRequests_of_sftp run requests h]
      rw [List.append_assoc, List.getElem?_append_right (by rw [length_rejects])]
      simp [length_rejects, dispatchEvents]
  · have hnone := handleChannelRequests_of_no_sftp run requests h
    have hnex : ¬ ∃ r ∈ requests, namesSftp r := fun hex =>
      h ((firstSftp_lt_iff requests).mpr hex)
    have e : firstSftp requests = requests.length := by
      have := firstSftp_le requests
      omega
    refine ⟨?_, ?_, ?_, hrej, ?_, ?_⟩
    · rw [hnone]
      simp only [hnex, iff_false, List.mem_append, List.mem_singleton, mem_rejects]
      rintro (⟨k, _, _, hk⟩ | hk)
      · cases hk
      · cases hk
    · intro hex
      exact absurd hex hnex
    · intro _
      exact hnone
    · intro k hk
      rw [hnone]
      rw [List.getElem?_append_left (by rw [length_rejects]; omega),
        getElem?_rejects 0 _ k (by omega)]
      simp
    · intro h2
      exact absurd h2 h

/-- Witness of C3 amended: on subsystem "shell", subsystem "sftp" the first request that
names sftp is request 1, and the whole run is the reject of request 0, the accept of
request 1, the log line, the call of handleSFTP from entry to return and the close. -/
theorem handoff_iff_some_request_names_sftp_witness :
    (∃ r ∈ shellThenSftp, namesSftp r)
    ∧ firstSftp shellThenSftp = 1
    ∧ handleChannelRequests cleanRun shellThenSftp
        = (rejects 0 (firstSftp shellThenSftp)
            ++ [Event.reply (firstSftp shellThenSftp) true,
                Event.log LogMsg.startingSftpSubsystem, Event.callHandleSFTP]
            ++ handleSFTP cleanRun
            ++ [Event.returnHandleSFTP, Event.channelClose],
           shellThenSftp.drop (firstSftp shellThenSftp + 1))
    ∧ (handleChannelRequests cleanRun shellThenSftp).1[0]? = some (Event.reply 0 false)
    ∧ (handleChannelRequests cleanRun shellThenSftp).1[firstSftp shellThenSftp]?
        = some (Event.reply (firstSftp shellThenSftp) true) :=
  ⟨by decide,
   by decide,
   ((handoff_iff_some_request_names_sftp cleanRun shellThenSftp).2.1 (by decide)).2.2.2,
   (handoff_iff_some_request_names_sftp cleanRun shellThenSftp).2.2.2.2.1 0 (by decide),
   (handoff_iff_some_request_names_sftp cleanRun shellThenSftp).2.2.2.2.2 (by decide)⟩

/-- C4 as stated fails: on the requests subsystem "sftp", subsystem "shell" the second
request of the sequence is never replied to. -/
theorem request_after_handoff_gets_no_reply :
    1 < sftpThenShell.length
    ∧ replyCount 1 (handleChannelRequests cleanRun sftpThenShell).1 = 0 := by
  decide

/-- C4 amended: every request of the sequence up to and including the first one that
names sftp (every request, when none does) gets exactly one call of Reply; the requests
after the first one that names sftp get none and stay unread in the stream. -/
theorem reply_once_until_handoff (run : SftpRun) (requests : List Request) (k : Nat)
    (hk : k < requests.length) :
    replyCount k (handleChannelRequests run requests).1
        = (if k ≤ firstSftp requests then 1 else 0)
    ∧ (handleChannelRequests run requests).2 = requests.drop (firstSftp requests + 1) := by
  by_cases h : firstSftp requests < requests.length
  · rw [handleChannelRequests_of_sftp run requests h]
    refine ⟨?_, rfl⟩
    rw [replyCount_append, replyCount_append, replyCount_rejects,
      replyCount_dispatchEvents]
    have hc : replyCount k [Event.channelClose] = 0 := by simp [replyCount, isReplyTo]
    rw [hc]
    by_cases h1 : k < firstSftp requests
    · have h2 : 0 ≤ k ∧ k < 0 + firstSftp requests := ⟨by omega, by omega⟩
      have h3 : ¬ firstSftp requests = k := by omega
      have h4 : k ≤ firstSftp requests := by omega
      rw [if_pos h2, if_neg h3, if_pos h4]
    · by_cases h5 : firstSftp requests = k
      · have h2 : ¬ (0 ≤ k ∧ k < 0 + firstSftp requests) := by omega
        have h4 : k ≤ firstSftp requests := by omega
        rw [if_neg h2, if_pos h5, if_pos h4]
      · have h2 : ¬ (0 ≤ k ∧ k < 0 + firstSftp requests) := by omega
        have h4 : ¬ k ≤ firstSftp requests := by omega
        rw [if_neg h2, if_neg h5, if_neg h4]
  · rw [handleChannelRequests_of_no_sftp run requests h]
    have e : firstSftp requests = requests.length := by
      have := firstSftp_le requests
      omega
    refine ⟨?_, ?_⟩
    · rw [replyCount_append, replyCount_rejects]
      have hc : replyCount k [Event.channelClose] = 0 := by simp [replyCount, isReplyTo]
      have h2 : 0 ≤ k ∧ k < 0 + requests.length := ⟨by omega, by omega⟩
      have h4 : k ≤ firstSftp requests := by omega
      rw [hc, if_pos h2, if_pos h4]
    · simp [e]

/-- Witness of C4 amended: on subsystem "shell", subsystem "sftp" the second request is
replied to once. -/
theorem reply_once_until_handoff_witness :
    1 < shellThenSftp.length
    ∧ replyCount 1 (handleChannelRequests cleanRun shellThenSftp).1
        = (if 1 ≤ firstSftp shellThenSftp then 1 else 0)
    ∧ (handleChannelRequests cleanRun shellThenSftp).2
        = shellThenSftp.drop (firstSftp shellThenSftp + 1) :=
  ⟨by decide, reply_once_until_handoff cleanRun shellThenSftp 1 (by decide)⟩

theorem countP_isReply_rejects (i n : Nat) : (rejects i n).countP isReply = n := by
  induction n generalizing i with
  | zero => rfl
  | succ n ih => simp [rejects, isReply, ih]

theorem countP_isReply_handleSFTP (run : SftpRun) : (handleSFTP run).countP isReply = 0 := by
  rw [List.countP_eq_zero]
  intro e he
  simp [(handleSFTP_events run e he).1]

/-- C5: for every finite sequence of requests handleChannelRequests calls handleSFTP at
most once; when it does, everything after the call is the run of handleSFTP, its return
and the close of the channel, with no reply and no second call among them, the replies
made are those to the requests up to the dispatched one, and the requests after the
dispatched one are left unread. -/
theorem handleSFTP_called_at_most_once (run : SftpRun) (requests : List Request) :
    (handleChannelRequests run requests).1.count Event.callHandleSFTP ≤ 1
    ∧ (Event.callHandleSFTP ∈ (handleChannelRequests run requests).1 →
        (∃ pre, (handleChannelRequests run requests).1
            = pre ++ Event.callHandleSFTP
                :: (handleSFTP run ++ [Event.returnHandleSFTP, Event.channelClose])
          ∧ Event.callHandleSFTP ∉ pre)
        ∧ (∀ e ∈ handleSFTP run ++ [Event.returnHandleSFTP, Event.channelClose],
            isReply e = false ∧ e ≠ Event.callHandleSFTP)
        ∧ (handleChannelRequests run requests).1.countP isReply = firstSftp requests + 1
        ∧ firstSftp requests < requests.length
        ∧ (handleChannelRequests run requests).2
            = requests.drop (firstSftp requests + 1)) := by
  by_cases h : firstSftp requests < requests.length
  · rw [handleChannelRequests_of_sftp run requests h]
    refine ⟨?_, fun _ => ⟨?_, ?_, ?_, h, rfl⟩⟩
    · simp [dispatchEvents, List.count_append, count_call_rejects, count_call_handleSFTP]
    · refine ⟨rejects 0 (firstSftp requests)
          ++ [Event.reply (firstSftp requests) true,
              Event.log LogMsg.startingSftpSubsystem], ?_, ?_⟩
      · simp [dispatchEvents]
      · simp only [List.mem_append, mem_rejects, List.mem_cons, List.mem_singleton,
          List.not_mem_nil, or_false, not_or]
        refine ⟨?_, ?_, ?_⟩
        · rintro ⟨k, _, _, hk⟩
          cases hk
        · intro hk
          cases hk
        · intro hk
          cases hk
    · intro e he
      simp only [List.mem_append, List.mem_cons, List.mem_singleton, List.not_mem_nil,
        or_false] at he
      rcases he with he | he | he
      · exact ⟨(handleSFTP_events run e he).1, (handleSFTP_events run e he).2.1⟩
      · subst he
        simp [isReply]
      · subst he
        simp [isReply]
    · simp [dispatchEvents, List.countP_append, countP_isReply_rejects,
        countP_isReply_handleSFTP, isReply]
  · rw [handleChannelRequests_of_no_sftp run requests h]
    have hn : Event.callHandleSFTP ∉ rejects 0 requests.length ++ [Event.channelClose] := by
      simp only [List.mem_append, mem_rejects, List.mem_singleton, not_or]
      refine ⟨?_, ?_⟩
      · rintro ⟨k, _, _, hk⟩
        cases hk
      · intro hk
        cases hk
    refine ⟨?_, fun hc => absurd hc hn⟩
    rw [List.count_eq_zero.mpr hn]
    exact Nat.zero_le 1

/-- Witness of C5: on subsystem "sftp", subsystem "shell" the call happens, one reply is
made and the second request stays unread. -/
theorem handleSFTP_called_at_most_once_witness :
    Event.callHandleSFTP ∈ (handleChannelRequests cleanRun sftpThenShell).1
    ∧ (handleChannelRequests cleanRun sftpThenShell).1.countP isReply = 1
    ∧ (handleChannelRequests cleanRun sftpThenShell).2 = [subsystemRequest (lit "shell")] :=
  ⟨by decide,
   ((handleSFTP_called_at_most_once cleanRun sftpThenShell).2 (by decide)).2.2.1,
   ((handleSFTP_called_at_most_once cleanRun sftpThenShell).2 (by decide)).2.2.2.2⟩

/-- C9: on every exit path of handleChannelRequests the router closes the channel exactly
once, as its last action: right after the last reject when no request names sftp, and
right after the return of handleSFTP when one does, whatever the sftp package answered
(the server failed to start, served to the end, or failed while serving; the failure is
logged inside handleSFTP, which returns no value). -/
theorem channel_closed_once_at_the_end (run : SftpRun) (requests : List Request) :
    (handleChannelRequests run requests).1.count Event.channelClose = 1
    ∧ (handleChannelRequests run requests).1.getLast? = some Event.channelClose
    ∧ ((∀ r ∈ requests, ¬ namesSftp r) →
        (handleChannelRequests run requests).1
          = rejects 0 requests.length ++ [Event.channelClose])
    ∧ ((∃ r ∈ requests, namesSftp r) →
        ∃ pre, (handleChannelRequests run requests).1
          = pre ++ [Event.callHandleSFTP] ++ handleSFTP run
              ++ [Event.returnHandleSFTP, Event.channelClose])
    ∧ (∀ err, run.NewServer = some err →
        handleSFTP run
          = [Event.newServer, Event.log (LogMsg.failedToCreateSftpServer err)])
    ∧ (run.NewServer = none → (run.Serve = none ∨ run.Serve = some GoError.EOF) →
        handleSFTP run
          = [Event.newServer, Event.log LogMsg.sftpSessionStarted, Event.serve,
              Event.log LogMsg.sftpSessionEnded, Event.serverClose])
    ∧ (∀ err, run.NewServer = none → run.Serve = some err → err ≠ GoError.EOF →
        handleSFTP run
          = [Event.newServer, Event.log LogMsg.sftpSessionStarted, Event.serve,
              Event.log (LogMsg.sftpServerError err),
              Event.log LogMsg.sftpSessionEnded, Event.serverClose]) := by
  refine ⟨?_, ?_, ?_, ?_, ?_, ?_, ?_⟩
  · by_cases h : firstSftp requests < requests.length
    · rw [handleChannelRequests_of_sftp run requests h]
      simp [dispatchEvents, List.count_append, count_close_rejects, count_close_handleSFTP]
    · rw [handleChannelRequests_of_no_sftp run requests h]
      simp [List.count_append, count_close_rejects]
  · simp [handleChannelRequests]
  · intro hall
    have h : ¬ firstSftp requests < requests.length := by
      rw [firstSftp_lt_iff]
      rintro ⟨r, hr, hs⟩
      exact hall r hr hs
    rw [handleChannelRequests_of_no_sftp run requests h]
  · intro hex
    have h : firstSftp requests < requests.length := (firstSftp_lt_iff requests).mpr hex
    rw [handleChannelRequests_of_sftp run requests h]
    refine ⟨rejects 0 (firstSftp requests)
        ++ [Event.reply (firstSftp requests) true,
            Event.log LogMsg.startingSftpSubsystem], ?_⟩
    simp [dispatchEvents]
  · intro err h
    simp [handleSFTP, h]
  · intro h1 h2
    rcases h2 with h2 | h2 <;> simp [handleSFTP, h1, h2]
  · intro err h1 h2 h3
    simp [handleSFTP, h1, h2, h3]

/-- Witness of C9: with a server that fails while serving, on subsystem "shell",
subsystem "sftp" the trace ends in the return of handleSFTP and the close. -/
theorem channel_closed_once_at_the_end_witness :
    (∃ r ∈ shellThenSftp, namesSftp r)
    ∧ (∃ pre, (handleChannelRequests
          (SftpRun.mk none (some (GoError.ext (lit "broken pipe")))) shellThenSftp).1
        = pre ++ [Event.callHandleSFTP]
            ++ handleSFTP (SftpRun.mk none (some (GoError.ext (lit "broken pipe"))))
            ++ [Event.returnHandleSFTP, Event.channelClose])
    ∧ handleSFTP (SftpRun.mk none (some (GoError.ext (lit "broken pipe"))))
        = [Event.newServer, Event.log LogMsg.sftpSessionStarted, Event.serve,
            Event.log (LogMsg.sftpServerError (GoError.ext (lit "broken pipe"))),
            Event.log LogMsg.sftpSessionEnded, Event.serverClose] :=
  ⟨by decide,
   (channel_closed_once_at_the_end
      (SftpRun.mk none (some (GoError.ext (lit "broken pipe")))) shellThenSftp).2.2.2.1
      (by decide),
   (channel_closed_once_at_the_end
      (SftpRun.mk none (some (GoError.ext (lit "broken pipe")))) shellThenSftp).2.2.2.2.2.2
      (GoError.ext (lit "broken pipe")) rfl rfl (by decide)⟩

/-- C10: the first 4 bytes of a subsystem payload are not looked at.  Two subsystem
requests whose payloads have at least 4 bytes and agree after the first 4 bytes get the
same reply and the same handoff decision; whatever the 4 bytes are, a payload that
continues with "sftp" is accepted and dispatched, and a payload of exactly 4 bytes is
rejected. -/
theorem subsystem_name_skips_four_bytes (run : SftpRun) (i : Nat) (r1 r2 : Request)
    (t1 : r1.Type_ = lit "subsystem") (t2 : r2.Type_ = lit "subsystem")
    (l1 : 4 ≤ r1.Payload.length) (l2 : 4 ≤ r2.Payload.length)
    (h : r1.Payload.drop 4 = r2.Payload.drop 4) :
    loopBody run i r1 = loopBody run i r2
    ∧ (∀ (w : Bool) (p : List Byte), p.length = 4 →
        loopBody run i (Request.mk (lit "subsystem") w (p ++ lit "sftp"))
          = (dispatchEvents run i, Flow.ret))
    ∧ (∀ (w : Bool) (p : List Byte), p.length = 4 →
        loopBody run i (Request.mk (lit "subsystem") w p)
          = ([Event.reply i false], Flow.next)) := by
  refine ⟨?_, ?_, ?_⟩
  · have n1 : ¬ r1.Payload.length < 4 := by omega
    have n2 : ¬ r2.Payload.length < 4 := by omega
    simp [loopBody, t1, t2, n1, n2, h]
  · intro w p hp
    apply loopBody_of_namesSftp
    refine ⟨rfl, ?_, ?_⟩
    · simp [hp]
    · simp [← hp]
  · intro w p hp
    apply loopBody_of_not_namesSftp
    rintro ⟨_, _, h3⟩
    have h4 : (List.drop 4 p).length = 0 := by simp [hp]
    simp only at h3
    rw [h3] at h4
    exact absurd h4 (by decide)

/-- Witness of C10: the payload 00 00 00 63 "sftp" is treated like the well-formed
00 00 00 04 "sftp", it is accepted and dispatched, and the 4-byte payload 00 00 00 00
is rejected. -/
theorem subsystem_name_skips_four_bytes_witness :
    loopBody cleanRun 0 wrongLengthSftp = loopBody cleanRun 0 (subsystemRequest (lit "sftp"))
    ∧ loopBody cleanRun 0 wrongLengthSftp = (dispatchEvents cleanRun 0, Flow.ret)
    ∧ loopBody cleanRun 0 (Request.mk (lit "subsystem") true [0, 0, 0, 0])
        = ([Event.reply 0 false], Flow.next) :=
  ⟨(subsystem_name_skips_four_bytes cleanRun 0 wrongLengthSftp
      (subsystemRequest (lit "sftp")) rfl rfl (by decide) (by decide) (by decide)).1,
   (subsystem_name_skips_four_bytes cleanRun 0 wrongLengthSftp
      (subsystemRequest (lit "sftp")) rfl rfl (by decide) (by decide)
      (by decide)).2.1 true [0, 0, 0, 0x63] rfl,
   (subsystem_name_skips_four_bytes cleanRun 0 wrongLengthSftp
      (subsystemRequest (lit "sftp")) rfl rfl (by decide) (by decide)
      (by decide)).2.2 true [0, 0, 0, 0] rfl⟩

/-! ## The channel dispatcher -/

theorem chanOf_channelLoop (chans : List NewChannel) (i : Nat) (e : ConnEvent) (j : Nat)
    (he : e ∈ channelLoop i chans) (hj : chanOf e = some j) :
    i ≤ j ∧ j < i + chans.length := by
  induction chans generalizing i with
  | nil => simp [channelLoop] at he
  | cons c rest ih =>
    have tail : e ∈ channelLoop (i + 1) rest → i ≤ j ∧ j < i + (c :: rest).length := by
      intro h
      have := ih (i + 1) h
      simp only [List.length_cons]
      omega
    unfold channelLoop at he
    by_cases ht : c.ChannelType = lit "session"
    · cases ha : c.Accept with
      | some err =>
        simp only [ht, ha, ne_eq, not_true_eq_false, if_false, List.mem_cons] at he
        rcases he with he | he | he
        · subst he
          simp only [chanOf, Option.some.injEq] at hj
          simp only [List.length_cons]
          omega
        · subst he
          simp [chanOf] at hj
        · exact tail he
      | none =>
        simp only [ht, ha, ne_eq, not_true_eq_false, if_false, List.mem_cons] at he
        rcases he with he | he | he
        · subst he
          simp only [chanOf, Option.some.injEq] at hj
          simp only [List.length_cons]
          omega
        · subst he
          simp only [chanOf, Option.some.injEq] at hj
          simp only [List.length_cons]
          omega
        · exact tail he
    · simp only [ht, ne_eq, not_false_eq_true, if_true, List.mem_cons] at he
      rcases he with he | he
      · subst he
        simp only [chanOf, Option.some.injEq] at hj
        simp only [List.length_cons]
        omega
      · exact tail he

theorem actionsOn_channelLoop_lt (chans : List NewChannel) (i k : Nat) (h : k < i) :
    actionsOn k (channelLoop i chans) = [] := by
  unfold actionsOn
  rw [List.filter_eq_nil_iff]
  intro e he hk
  have hk2 : chanOf e = some k := by simpa using hk
  have := chanOf_channelLoop chans i e k he hk2
  omega

theorem channelLoop_cons_reject (i : Nat) (c : NewChannel) (rest : List NewChannel)
    (ht : c.ChannelType ≠ lit "session") :
    channelLoop i (c :: rest)
      = ConnEvent.reject i RejectionReason.UnknownChannelType
          (lit "unknown channel type: " ++ c.ChannelType) :: channelLoop (i + 1) rest := by
  rw [channelLoop, if_pos ht]

theorem channelLoop_cons_failed (i : Nat) (c : NewChannel) (rest : List NewChannel)
    (err : GoError) (ht : c.ChannelType = lit "session") (ha : c.Accept = some err) :
    channelLoop i (c :: rest)
      = ConnEvent.accept i :: ConnEvent.log (LogMsg.couldNotAcceptChannel err)
          :: channelLoop (i + 1) rest := by
  rw [channelLoop, if_neg (by simp [ht]), ha]

theorem channelLoop_cons_accepted (i : Nat) (c : NewChannel) (rest : List NewChannel)
    (ht : c.ChannelType = lit "session") (ha : c.Accept = none) :
    channelLoop i (c :: rest)
      = ConnEvent.accept i :: ConnEvent.goHandleChannelRequests i
          :: channelLoop (i + 1) rest := by
  rw [channelLoop, if_neg (by simp [ht]), ha]

theorem actionsOn_cons_of_eq (k : Nat) (e : ConnEvent) (l : List ConnEvent)
    (h : chanOf e = some k) : actionsOn k (e :: l) = e :: actionsOn k l := by
  simp [actionsOn, h]

theorem actionsOn_cons_of_ne (k : Nat) (e : ConnEvent) (l : List ConnEvent)
    (h : chanOf e ≠ some k) : actionsOn k (e :: l) = actionsOn k l := by
  simp [actionsOn, h]

/-- The actions on one channel-open event, by its type and the result of its accept. -/
theorem actionsOn_channelLoop (chans : List NewChannel) (i k : Nat) (c : NewChannel)
    (hc : chans[k]? = some c) :
    actionsOn (i + k) (channelLoop i chans)
      = if c.ChannelType ≠ lit "session" then
          [ConnEvent.reject (i + k) RejectionReason.UnknownChannelType
            (lit "unknown channel type: " ++ c.ChannelType)]
        else if c.Accept.isNone then
          [ConnEvent.accept (i + k), ConnEvent.goHandleChannelRequests (i + k)]
        else [ConnEvent.accept (i + k)] := by
  induction chans generalizing i k with
  | nil => simp at hc
  | cons c0 rest ih =>
    cases k with
    | zero =>
      simp only [List.getElem?_cons_zero, Option.some.injEq] at hc
      subst hc
      have tl : actionsOn i (channelLoop (i + 1) rest) = [] :=
        actionsOn_channelLoop_lt rest (i + 1) i (by omega)
      rw [Nat.add_zero]
      by_cases ht : c0.ChannelType = lit "session"
      · cases ha : c0.Accept with
        | some err =>
          rw [channelLoop_cons_failed i c0 rest err ht ha,
            actionsOn_cons_of_eq i _ _ (by rfl), actionsOn_cons_of_ne i _ _ (by simp [chanOf]),
            tl]
          simp [ht]
        | none =>
          rw [channelLoop_cons_accepted i c0 rest ht ha,
            actionsOn_cons_of_eq i _ _ (by rfl), actionsOn_cons_of_eq i _ _ (by rfl), tl]
          simp [ht]
      · rw [channelLoop_cons_reject i c0 rest ht, actionsOn_cons_of_eq i _ _ (by rfl), tl]
        simp [ht]
    | succ k =>
      simp only [List.getElem?_cons_succ] at hc
      have e : i + (k + 1) = i + 1 + k := by omega
      have hne : ¬ i = i + 1 + k := by omega
      rw [e, ← ih (i + 1) k hc]
      by_cases ht : c0.ChannelType = lit "session"
      · cases ha : c0.Accept with
        | some err =>
          rw [channelLoop_cons_failed i c0 rest err ht ha,
            actionsOn_cons_of_ne _ _ _ (by simp [chanOf, hne]),
            actionsOn_cons_of_ne _ _ _ (by simp [chanOf])]
        | none =>
          rw [channelLoop_cons_accepted i c0 rest ht ha,
            actionsOn_cons_of_ne _ _ _ (by simp [chanOf, hne]),
            actionsOn_cons_of_ne _ _ _ (by simp [chanOf, hne])]
      · rw [channelLoop_cons_reject i c0 rest ht,
          actionsOn_cons_of_ne _ _ _ (by simp [chanOf, hne])]

theorem countP_isRouterStart_channelLoop (chans : List NewChannel) (i : Nat) :
    (channelLoop i chans).countP isRouterStart = chans.countP sessionAccepted := by
  induction chans generalizing i with
  | nil => rfl
  | cons c rest ih =>
    unfold channelLoop
    by_cases ht : c.ChannelType = lit "session"
    · cases ha : c.Accept with
      | some err => simp [ht, ha, isRouterStart, sessionAccepted, ih (i + 1)]
      | none => simp [ht, ha, isRouterStart, sessionAccepted, ih (i + 1)]
    · simp [ht, isRouterStart, sessionAccepted, ih (i + 1)]

theorem pairwise_chanOf_channelLoop (chans : List NewChannel) (i : Nat) :
    ((channelLoop i chans).filterMap chanOf).Pairwise (fun a b => a ≤ b) := by
  induction chans generalizing i with
  | nil => simp [channelLoop]
  | cons c rest ih =>
    have tl : ∀ b ∈ (channelLoop (i + 1) rest).filterMap chanOf, i ≤ b := by
      intro b hb
      rw [List.mem_filterMap] at hb
      obtain ⟨e, he, hj⟩ := hb
      have := chanOf_channelLoop rest (i + 1) e b he hj
      omega
    unfold channelLoop
    by_cases ht : c.ChannelType = lit "session"
    · cases ha : c.Accept with
      | some err =>
        simp only [ht, ne_eq, not_true_eq_false, if_false, List.filterMap_cons, chanOf,
          List.pairwise_cons]
        exact ⟨tl, ih (i + 1)⟩
      | none =>
        simp only [ht, ne_eq, not_true_eq_false, if_false, List.filterMap_cons, chanOf,
          List.pairwise_cons, List.mem_cons]
        refine ⟨?_, tl, ih (i + 1)⟩
        rintro b (hb | hb)
        · omega
        · exact tl b hb
    · simp only [ht, ne_eq, not_false_eq_true, if_true, List.filterMap_cons, chanOf,
        List.pairwise_cons]
      exact ⟨tl, ih (i + 1)⟩

/-- C6: the dispatch loop of handleConnection handles every channel-open event of the
sequence, in order.  On an event whose type is not "session" its only action is one
Reject with the unknown-channel-type reason; on a "session" event it is one Accept,
followed by the start of one handleChannelRequests task exactly when the accept
succeeded.  The number of router tasks started is the number of session events whose
accept succeeded, and the loop is the whole of what handleConnection does between its
set-up and its deferred closes. -/
theorem channelLoop_dispatch (chans : List NewChannel) :
    (∀ k c, chans[k]? = some c →
        (c.ChannelType ≠ lit "session" →
          actionsOn k (channelLoop 0 chans)
            = [ConnEvent.reject k RejectionReason.UnknownChannelType
                (lit "unknown channel type: " ++ c.ChannelType)])
        ∧ (c.ChannelType = lit "session" → c.Accept = none →
          actionsOn k (channelLoop 0 chans)
            = [ConnEvent.accept k, ConnEvent.goHandleChannelRequests k])
        ∧ (c.ChannelType = lit "session" → c.Accept ≠ none →
          actionsOn k (channelLoop 0 chans) = [ConnEvent.accept k]))
    ∧ ((channelLoop 0 chans).filterMap chanOf).Pairwise (fun a b => a ≤ b)
    ∧ (channelLoop 0 chans).countP isRouterStart = chans.countP sessionAccepted
    ∧ (∀ remoteAddr addr version,
        handleConnection remoteAddr (Except.ok (ServerConn.mk addr version chans))
          = [ConnEvent.log (LogMsg.newConnection remoteAddr), ConnEvent.newServerConn,
              ConnEvent.log (LogMsg.connectionEstablished addr version),
              ConnEvent.goDiscardRequests]
            ++ channelLoop 0 chans ++ [ConnEvent.sshConnClose, ConnEvent.connClose]) := by
  refine ⟨?_, pairwise_chanOf_channelLoop chans 0, countP_isRouterStart_channelLoop chans 0,
    ?_⟩
  · intro k c hc
    have h := actionsOn_channelLoop chans 0 k c hc
    simp only [Nat.zero_add] at h
    refine ⟨?_, ?_, ?_⟩
    · intro ht
      rw [h, if_pos ht]
    · intro ht ha
      rw [h, if_neg (by simp [ht])]
      simp [ha]
    · intro ht ha
      rw [h, if_neg (by simp [ht])]
      cases hacc : c.Accept with
      | none => exact absurd hacc ha
      | some err => simp
  · intro remoteAddr addr version
    simp [handleConnection]

/-- Witness of C6: on a session, a "direct-tcpip" channel, a session whose accept fails
and a session, event 1 is rejected once, event 2 is accepted and starts no router, event
3 is accepted and starts one, and two routers are started in all. -/
theorem channelLoop_dispatch_witness :
    actionsOn 1 (channelLoop 0 fourChannels)
        = [ConnEvent.reject 1 RejectionReason.UnknownChannelType
            (lit "unknown channel type: " ++ lit "direct-tcpip")]
    ∧ actionsOn 2 (channelLoop 0 fourChannels) = [ConnEvent.accept 2]
    ∧ actionsOn 3 (channelLoop 0 fourChannels)
        = [ConnEvent.accept 3, ConnEvent.goHandleChannelRequests 3]
    ∧ (channelLoop 0 fourChannels).countP isRouterStart = 2 :=
  ⟨((channelLoop_dispatch fourChannels).1 1 (NewChannel.mk (lit "direct-tcpip") none)
      (by decide)).1 (by decide),
   ((channelLoop_dispatch fourChannels).1 2
      (NewChannel.mk (lit "session") (some (GoError.ext (lit "channel closed"))))
      (by decide)).2.2 (by decide) (by decide),
   ((channelLoop_dispatch fourChannels).1 3 (NewChannel.mk (lit "session") none)
      (by decide)).2.1 (by decide) (by decide),
   (channelLoop_dispatch fourChannels).2.2.1.trans (by decide)⟩

/-! ## The host key store -/

theorem lookup_store (fs : FS) (path : Path) (n : Node) :
    (fs.store path n).lookup path = some n := by
  simp [FS.store, FS.lookup]

/-- With a file at the path the store is the load: no write, the result of
`loadHostKey`. -/
theorem loadOrGenerateHostKey_load {Signer : Type} (lib : Crypto Signer)
    (generated : Except GoError (List Byte)) (fs : FS) (path : Path)
    (h : os_Stat fs path = none) :
    (loadOrGenerateHostKey lib generated fs path).fs = fs
    ∧ (loadOrGenerateHostKey lib generated fs path).result = loadHostKey lib fs path := by
  simp [loadOrGenerateHostKey, h]

/-- C7: when a file exists at the path (os.Stat reports no error) loadOrGenerateHostKey
leaves the file system as it is and returns the result of parsing the bytes read from the
file: the parsed signer when the parse succeeds, an error when the read or the parse
fails, whatever key the generator would have produced.  A second call on the same path
returns the same result. -/
theorem loadOrGenerateHostKey_existing {Signer : Type} (lib : Crypto Signer)
    (generated : Except GoError (List Byte)) (fs : FS) (path : Path)
    (h : os_Stat fs path = none) :
    (loadOrGenerateHostKey lib generated fs path).fs = fs
    ∧ (∀ err, ioutil_ReadFile fs path = Except.error err →
        (loadOrGenerateHostKey lib generated fs path).result
          = Except.error (GoError.failedToReadHostKey err))
    ∧ (∀ data err, ioutil_ReadFile fs path = Except.ok data →
        lib.ParsePrivateKey data = Except.error err →
        (loadOrGenerateHostKey lib generated fs path).result
          = Except.error (GoError.failedToParseHostKey err))
    ∧ (∀ data signer, ioutil_ReadFile fs path = Except.ok data →
        lib.ParsePrivateKey data = Except.ok signer →
        (loadOrGenerateHostKey lib generated fs path).result = Except.ok signer)
    ∧ (∀ generated2,
        (loadOrGenerateHostKey lib generated2
            (loadOrGenerateHostKey lib generated fs path).fs path).result
          = (loadOrGenerateHostKey lib generated fs path).result) := by
  refine ⟨?_, ?_, ?_, ?_, ?_⟩
  · simp [loadOrGenerateHostKey, h]
  · intro err hr
    simp [loadOrGenerateHostKey, h, loadHostKey, hr]
  · intro data err hr hp
    simp [loadOrGenerateHostKey, h, loadHostKey, hr, hp]
  · intro data signer hr hp
    simp [loadOrGenerateHostKey, h, loadHostKey, hr, hp]
  · intro generated2
    simp [loadOrGenerateHostKey, h]

/-- Witness of C7: with a key file at the default path the store returns the parse of
the file and does not touch the file system. -/
theorem loadOrGenerateHostKey_existing_witness :
    os_Stat fsWithKey keyPath = none
    ∧ (loadOrGenerateHostKey toyCrypto (Except.ok [9, 9]) fsWithKey keyPath).fs = fsWithKey
    ∧ (loadOrGenerateHostKey toyCrypto (Except.ok [9, 9]) fsWithKey keyPath).result
        = Except.ok [1, 2, 3] :=
  ⟨by decide,
   (loadOrGenerateHostKey_existing toyCrypto (Except.ok [9, 9]) fsWithKey keyPath
      (by decide)).1,
   (loadOrGenerateHostKey_existing toyCrypto (Except.ok [9, 9]) fsWithKey keyPath
      (by decide)).2.2.2.1 (lit "PRIVATE KEY" ++ [1, 2, 3]) [1, 2, 3] (by decide)
      (by decide)⟩

theorem lookup_of_stat_error (fs : FS) (path : Path) (h : os_Stat fs path ≠ none) :
    fs.lookup path = none := by
  unfold os_Stat at h
  cases hl : fs.lookup path with
  | none => rfl
  | some n => simp [hl] at h

theorem stat_of_lookup (fs : FS) (path : Path) (n : Node) (h : fs.lookup path = some n) :
    os_Stat fs path = none := by
  simp [os_Stat, h]

theorem writeFile_of_absent (fs fs1 : FS) (path : Path) (data : List Byte) (perm : Nat)
    (hl : fs.lookup path = none) (hw : ioutil_WriteFile fs path data perm = Except.ok fs1) :
    fs1 = fs.store path (Node.file data perm) := by
  unfold ioutil_WriteFile at hw
  rw [hl] at hw
  by_cases hc : path ∈ fs.noCreate
  · simp [hc] at hw
  · simp only [hc, if_false] at hw
    exact (Except.ok.inj hw).symm

/-- C8: when no file exists at the path (os.Stat reports an error) and the write of the
generated key succeeds, loadOrGenerateHostKey leaves at the path a file of mode 0600
whose content is the PEM encoding of one block labelled "PRIVATE KEY" that holds the
PKCS#8 form of the generated key; what it returns is the parse of exactly those bytes,
and a following call on the same path finds the file, leaves it alone and returns the
same signer.  When the write fails it returns the write error and no signer. -/
theorem loadOrGenerateHostKey_absent {Signer : Type} (lib : Crypto Signer)
    (priv der : List Byte) (fs : FS) (path : Path)
    (hs : os_Stat fs path ≠ none)
    (hm : lib.MarshalPKCS8PrivateKey priv = Except.ok der) :
    (∀ fs1,
        ioutil_WriteFile fs path
            (lib.EncodeToMemory (PemBlock.mk (lit "PRIVATE KEY") [] der)) 0o600
          = Except.ok fs1 →
        (loadOrGenerateHostKey lib (Except.ok priv) fs path).fs = fs1
        ∧ fs1.lookup path
            = some (Node.file
                (lib.EncodeToMemory (PemBlock.mk (lit "PRIVATE KEY") [] der)) 0o600)
        ∧ (∀ signer,
            lib.ParsePrivateKey (lib.EncodeToMemory (PemBlock.mk (lit "PRIVATE KEY") [] der))
              = Except.ok signer →
            (loadOrGenerateHostKey lib (Except.ok priv) fs path).result = Except.ok signer)
        ∧ (∀ err,
            lib.ParsePrivateKey (lib.EncodeToMemory (PemBlock.mk (lit "PRIVATE KEY") [] der))
              = Except.error err →
            (loadOrGenerateHostKey lib (Except.ok priv) fs path).result
              = Except.error (GoError.failedToParseGeneratedKey err))
        ∧ (∀ signer generated2,
            (loadOrGenerateHostKey lib (Except.ok priv) fs path).result = Except.ok signer →
            (loadOrGenerateHostKey lib generated2 fs1 path).result = Except.ok signer
            ∧ (loadOrGenerateHostKey lib generated2 fs1 path).fs = fs1))
    ∧ (∀ err,
        ioutil_WriteFile fs path
            (lib.EncodeToMemory (PemBlock.mk (lit "PRIVATE KEY") [] der)) 0o600
          = Except.error err →
        (loadOrGenerateHostKey lib (Except.ok priv) fs path).result
          = Except.error (GoError.failedToWriteHostKey err)) := by
  have hl := lookup_of_stat_error fs path hs
  refine ⟨?_, ?_⟩
  · intro fs1 hw
    have hfs := writeFile_of_absent fs fs1 path _ _ hl hw
    have hlk : fs1.lookup path
        = some (Node.file
            (lib.EncodeToMemory (PemBlock.mk (lit "PRIVATE KEY") [] der)) 0o600) := by
      rw [hfs]
      exact lookup_store fs path _
    have hst : os_Stat fs1 path = none := stat_of_lookup fs1 path _ hlk
    have hrd : ioutil_ReadFile fs1 path
        = Except.ok (lib.EncodeToMemory (PemBlock.mk (lit "PRIVATE KEY") [] der)) := by
      have hr : ownerCanRead 0o600 = true := by decide
      simp [ioutil_ReadFile, hlk, hr]
    have hres : ∀ signer,
        lib.ParsePrivateKey (lib.EncodeToMemory (PemBlock.mk (lit "PRIVATE KEY") [] der))
          = Except.ok signer →
        (loadOrGenerateHostKey lib (Except.ok priv) fs path).result = Except.ok signer := by
      intro signer hp
      simp [loadOrGenerateHostKey, hs, generateAndSaveHostKey, hm, hw, hp]
    have hfail : ∀ err,
        lib.ParsePrivateKey (lib.EncodeToMemory (PemBlock.mk (lit "PRIVATE KEY") [] der))
          = Except.error err →
        (loadOrGenerateHostKey lib (Except.ok priv) fs path).result
          = Except.error (GoError.failedToParseGeneratedKey err) := by
      intro err hp
      simp [loadOrGenerateHostKey, hs, generateAndSaveHostKey, hm, hw, hp]
    refine ⟨?_, hlk, hres, hfail, ?_⟩
    · cases hp : lib.ParsePrivateKey
          (lib.EncodeToMemory (PemBlock.mk (lit "PRIVATE KEY") [] der)) with
      | ok signer => simp [loadOrGenerateHostKey, hs, generateAndSaveHostKey, hm, hw, hp]
      | error err => simp [loadOrGenerateHostKey, hs, generateAndSaveHostKey, hm, hw, hp]
    · intro signer generated2 hr
      cases hp : lib.ParsePrivateKey
          (lib.EncodeToMemory (PemBlock.mk (lit "PRIVATE KEY") [] der)) with
      | error err =>
        rw [hfail err hp] at hr
        cases hr
      | ok signer1 =>
        rw [hres signer1 hp] at hr
        cases hr
        exact ⟨(loadOrGenerateHostKey_load lib generated2 fs1 path hst).2.trans
            (by simp [loadHostKey, hrd, hp]),
          (loadOrGenerateHostKey_load lib generated2 fs1 path hst).1⟩
  · intro err hw
    simp [loadOrGenerateHostKey, hs, generateAndSaveHostKey, hm, hw]

/-- Witness of C8: with an empty key directory the store creates the key file with mode
0600, and where no file can be created it returns the write error. -/
theorem loadOrGenerateHostKey_absent_witness :
    os_Stat fsWithoutKey keyPath ≠ none
    ∧ (loadOrGenerateHostKey toyCrypto (Except.ok [7, 7]) fsWithoutKey keyPath).fs.lookup keyPath
        = some (Node.file (lit "PRIVATE KEY" ++ [7, 7]) 0o600)
    ∧ (loadOrGenerateHostKey toyCrypto (Except.ok [7, 7]) fsWithoutKey keyPath).result
        = Except.ok [7, 7]
    ∧ (loadOrGenerateHostKey toyCrypto (Except.ok [7, 7]) fsReadOnly keyPath).result
        = Except.error
            (GoError.failedToWriteHostKey (GoError.ext (lit "cannot create file"))) :=
  ⟨by decide,
   by
     have h := (loadOrGenerateHostKey_absent toyCrypto [7, 7] [7, 7] fsWithoutKey keyPath
       (by decide) rfl).1 (fsWithoutKey.store keyPath
         (Node.file (lit "PRIVATE KEY" ++ [7, 7]) 0o600)) (by decide)
     rw [h.1]
     exact h.2.1,
   ((loadOrGenerateHostKey_absent toyCrypto [7, 7] [7, 7] fsWithoutKey keyPath
       (by decide) rfl).1 (fsWithoutKey.store keyPath
         (Node.file (lit "PRIVATE KEY" ++ [7, 7]) 0o600)) (by decide)).2.2.1 [7, 7]
       (by decide),
   (loadOrGenerateHostKey_absent toyCrypto [7, 7] [7, 7] fsReadOnly keyPath
       (by decide) rfl).2 (GoError.ext (lit "cannot create file")) (by decide)⟩

end GoSftpServer
